import Mathlib

/-!
Verification of the error-handling layer of the solana-relay program
(`src/rust/solana-relay/src/errors.rs`), together with the checked
byte-reader and the CompactInt codec that the specification describes for
the underlying SPV verification engine.
-/

/-- The error enumeration of the external `bitcoin_spv` library, exactly as
the relay's conversion function enumerates it: the
`impl From<SPVError> for RelayError` in `errors.rs` matches exhaustively on
these twenty variants, in this order. -/
inductive SPVError
  | ReadOverrun
  | BadCompactInt
  | MalformattedOpReturnOutput
  | MalformattedP2SHOutput
  | MalformattedP2PKHOutput
  | MalformattedWitnessOutput
  | MalformattedOutput
  | WrongLengthHeader
  | UnexpectedDifficultyChange
  | InsufficientWork
  | InvalidChain
  | WrongDigest
  | WrongMerkleRoot
  | WrongPrevHash
  | InvalidVin
  | InvalidVout
  | WrongTxID
  | BadMerkleProof
  | OutputLengthMismatch
  | UnknownError
  deriving DecidableEq, Fintype, Repr

/-- The local error enumeration `RelayError` of `errors.rs`, with its
constructors in declaration order: two relay-specific variants first
(`AlreadyInit`, `InsufficientStateSpace`), then the twenty variants copied
from bitcoin-spv. -/
inductive RelayError
  | AlreadyInit
  | InsufficientStateSpace
  | ReadOverrun
  | BadCompactInt
  | MalformattedOpReturnOutput
  | MalformattedP2SHOutput
  | MalformattedP2PKHOutput
  | MalformattedWitnessOutput
  | MalformattedOutput
  | WrongLengthHeader
  | UnexpectedDifficultyChange
  | InsufficientWork
  | InvalidChain
  | WrongDigest
  | WrongMerkleRoot
  | WrongPrevHash
  | InvalidVin
  | InvalidVout
  | WrongTxID
  | BadMerkleProof
  | OutputLengthMismatch
  | UnknownError
  deriving DecidableEq, Fintype, Repr

/-- All `SPVError` variants, in the order of the conversion's match arms. -/
def spvErrorAll : List SPVError :=
  [SPVError.ReadOverrun, SPVError.BadCompactInt,
   SPVError.MalformattedOpReturnOutput, SPVError.MalformattedP2SHOutput,
   SPVError.MalformattedP2PKHOutput, SPVError.MalformattedWitnessOutput,
   SPVError.MalformattedOutput, SPVError.WrongLengthHeader,
   SPVError.UnexpectedDifficultyChange, SPVError.InsufficientWork,
   SPVError.InvalidChain, SPVError.WrongDigest, SPVError.WrongMerkleRoot,
   SPVError.WrongPrevHash, SPVError.InvalidVin, SPVError.InvalidVout,
   SPVError.WrongTxID, SPVError.BadMerkleProof,
   SPVError.OutputLengthMismatch, SPVError.UnknownError]

/-- All `RelayError` variants, in declaration order. -/
def relayErrorAll : List RelayError :=
  [RelayError.AlreadyInit, RelayError.InsufficientStateSpace,
   RelayError.ReadOverrun, RelayError.BadCompactInt,
   RelayError.MalformattedOpReturnOutput, RelayError.MalformattedP2SHOutput,
   RelayError.MalformattedP2PKHOutput, RelayError.MalformattedWitnessOutput,
   RelayError.MalformattedOutput, RelayError.WrongLengthHeader,
   RelayError.UnexpectedDifficultyChange, RelayError.InsufficientWork,
   RelayError.InvalidChain, RelayError.WrongDigest,
   RelayError.WrongMerkleRoot, RelayError.WrongPrevHash,
   RelayError.InvalidVin, RelayError.InvalidVout, RelayError.WrongTxID,
   RelayError.BadMerkleProof, RelayError.OutputLengthMismatch,
   RelayError.UnknownError]

/-- The twenty error kinds of the spec's taxonomy (section 7), in the order
the taxonomy lists them. -/
def specTaxonomyKinds : List RelayError :=
  [RelayError.ReadOverrun, RelayError.BadCompactInt,
   RelayError.MalformattedOpReturnOutput, RelayError.MalformattedP2SHOutput,
   RelayError.MalformattedP2PKHOutput, RelayError.MalformattedWitnessOutput,
   RelayError.MalformattedOutput, RelayError.OutputLengthMismatch,
   RelayError.InvalidVin, RelayError.InvalidVout,
   RelayError.WrongLengthHeader, RelayError.WrongDigest,
   RelayError.WrongMerkleRoot, RelayError.WrongPrevHash,
   RelayError.WrongTxID, RelayError.BadMerkleProof,
   RelayError.UnexpectedDifficultyChange, RelayError.InsufficientWork,
   RelayError.InvalidChain, RelayError.UnknownError]

/-- `impl From<SPVError> for RelayError` of `errors.rs`, arm for arm. -/
def relayErrorOfSPVError : SPVError → RelayError
  | SPVError.ReadOverrun => RelayError.ReadOverrun
  | SPVError.BadCompactInt => RelayError.BadCompactInt
  | SPVError.MalformattedOpReturnOutput => RelayError.MalformattedOpReturnOutput
  | SPVError.MalformattedP2SHOutput => RelayError.MalformattedP2SHOutput
  | SPVError.MalformattedP2PKHOutput => RelayError.MalformattedP2PKHOutput
  | SPVError.MalformattedWitnessOutput => RelayError.MalformattedWitnessOutput
  | SPVError.MalformattedOutput => RelayError.MalformattedOutput
  | SPVError.WrongLengthHeader => RelayError.WrongLengthHeader
  | SPVError.UnexpectedDifficultyChange => RelayError.UnexpectedDifficultyChange
  | SPVError.InsufficientWork => RelayError.InsufficientWork
  | SPVError.InvalidChain => RelayError.InvalidChain
  | SPVError.WrongDigest => RelayError.WrongDigest
  | SPVError.WrongMerkleRoot => RelayError.WrongMerkleRoot
  | SPVError.WrongPrevHash => RelayError.WrongPrevHash
  | SPVError.InvalidVin => RelayError.InvalidVin
  | SPVError.InvalidVout => RelayError.InvalidVout
  | SPVError.WrongTxID => RelayError.WrongTxID
  | SPVError.BadMerkleProof => RelayError.BadMerkleProof
  | SPVError.OutputLengthMismatch => RelayError.OutputLengthMismatch
  | SPVError.UnknownError => RelayError.UnknownError

/-- The Rust cast `e as u32` on `RelayError`: the enum declares no explicit
discriminants, so each variant's value is its declaration index. -/
def relayErrorCode : RelayError → Nat
  | RelayError.AlreadyInit => 0
  | RelayError.InsufficientStateSpace => 1
  | RelayError.ReadOverrun => 2
  | RelayError.BadCompactInt => 3
  | RelayError.MalformattedOpReturnOutput => 4
  | RelayError.MalformattedP2SHOutput => 5
  | RelayError.MalformattedP2PKHOutput => 6
  | RelayError.MalformattedWitnessOutput => 7
  | RelayError.MalformattedOutput => 8
  | RelayError.WrongLengthHeader => 9
  | RelayError.UnexpectedDifficultyChange => 10
  | RelayError.InsufficientWork => 11
  | RelayError.InvalidChain => 12
  | RelayError.WrongDigest => 13
  | RelayError.WrongMerkleRoot => 14
  | RelayError.WrongPrevHash => 15
  | RelayError.InvalidVin => 16
  | RelayError.InvalidVout => 17
  | RelayError.WrongTxID => 18
  | RelayError.BadMerkleProof => 19
  | RelayError.OutputLengthMismatch => 20
  | RelayError.UnknownError => 21

/-- The fragment of the external `solana_sdk` `ProgramError` type that
`errors.rs` uses: the `Custom` constructor carrying a u32 code. -/
inductive ProgramError
  | Custom (code : Nat)
  deriving DecidableEq, Repr

/-- `impl From<RelayError> for ProgramError` of `errors.rs`:
`ProgramError::Custom(e as u32)`. -/
def programErrorOfRelayError (e : RelayError) : ProgramError :=
  ProgramError.Custom (relayErrorCode e)

/-- The derived `FromPrimitive::from_u32` on `RelayError`: a numeric value
equal to some variant's discriminant yields that variant; any other value
yields none. -/
def relayErrorFromU32 : Nat → Option RelayError
  | 0 => some RelayError.AlreadyInit
  | 1 => some RelayError.InsufficientStateSpace
  | 2 => some RelayError.ReadOverrun
  | 3 => some RelayError.BadCompactInt
  | 4 => some RelayError.MalformattedOpReturnOutput
  | 5 => some RelayError.MalformattedP2SHOutput
  | 6 => some RelayError.MalformattedP2PKHOutput
  | 7 => some RelayError.MalformattedWitnessOutput
  | 8 => some RelayError.MalformattedOutput
  | 9 => some RelayError.WrongLengthHeader
  | 10 => some RelayError.UnexpectedDifficultyChange
  | 11 => some RelayError.InsufficientWork
  | 12 => some RelayError.InvalidChain
  | 13 => some RelayError.WrongDigest
  | 14 => some RelayError.WrongMerkleRoot
  | 15 => some RelayError.WrongPrevHash
  | 16 => some RelayError.InvalidVin
  | 17 => some RelayError.InvalidVout
  | 18 => some RelayError.WrongTxID
  | 19 => some RelayError.BadMerkleProof
  | 20 => some RelayError.OutputLengthMismatch
  | 21 => some RelayError.UnknownError
  | _ => none

/-- The Rust identifier of each `RelayError` variant, from the enum
declaration in `errors.rs`. -/
def relayErrorName : RelayError → String
  | RelayError.AlreadyInit => "AlreadyInit"
  | RelayError.InsufficientStateSpace => "InsufficientStateSpace"
  | RelayError.ReadOverrun => "ReadOverrun"
  | RelayError.BadCompactInt => "BadCompactInt"
  | RelayError.MalformattedOpReturnOutput => "MalformattedOpReturnOutput"
  | RelayError.MalformattedP2SHOutput => "MalformattedP2SHOutput"
  | RelayError.MalformattedP2PKHOutput => "MalformattedP2PKHOutput"
  | RelayError.MalformattedWitnessOutput => "MalformattedWitnessOutput"
  | RelayError.MalformattedOutput => "MalformattedOutput"
  | RelayError.WrongLengthHeader => "WrongLengthHeader"
  | RelayError.UnexpectedDifficultyChange => "UnexpectedDifficultyChange"
  | RelayError.InsufficientWork => "InsufficientWork"
  | RelayError.InvalidChain => "InvalidChain"
  | RelayError.WrongDigest => "WrongDigest"
  | RelayError.WrongMerkleRoot => "WrongMerkleRoot"
  | RelayError.WrongPrevHash => "WrongPrevHash"
  | RelayError.InvalidVin => "InvalidVin"
  | RelayError.InvalidVout => "InvalidVout"
  | RelayError.WrongTxID => "WrongTxID"
  | RelayError.BadMerkleProof => "BadMerkleProof"
  | RelayError.OutputLengthMismatch => "OutputLengthMismatch"
  | RelayError.UnknownError => "UnknownError"

/-- The `Display` string of each `RelayError` variant: the text written in
the thiserror `error(...)` attribute on that variant in `errors.rs`. -/
def relayErrorDisplay : RelayError → String
  | RelayError.AlreadyInit => "AlreadyInit"
  | RelayError.InsufficientStateSpace => "InsufficientStateSpace"
  | RelayError.ReadOverrun => "ReadOverrun"
  | RelayError.BadCompactInt => "BadCompactInt"
  | RelayError.MalformattedOpReturnOutput => "MalformattedOpReturnOutput"
  | RelayError.MalformattedP2SHOutput => "MalformattedP2SHOutput"
  | RelayError.MalformattedP2PKHOutput => "MalformattedP2PKHOutput"
  | RelayError.MalformattedWitnessOutput => "MalformattedWitnessOutput"
  | RelayError.MalformattedOutput => "MalformattedOutput"
  | RelayError.WrongLengthHeader => "WrongLengthHeader"
  | RelayError.UnexpectedDifficultyChange => "UnexpectedDifficultyChange"
  | RelayError.InsufficientWork => "InsufficientWork"
  | RelayError.InvalidChain => "InvalidChain"
  | RelayError.WrongDigest => "WrongDigest"
  | RelayError.WrongMerkleRoot => "WrongMerkleRoot"
  | RelayError.WrongPrevHash => "WrongPrevHash"
  | RelayError.InvalidVin => "InvalidVin"
  | RelayError.InvalidVout => "InvalidVout"
  | RelayError.WrongTxID => "WrongTxID"
  | RelayError.BadMerkleProof => "BadMerkleProof"
  | RelayError.OutputLengthMismatch => "OutputLengthMismatch"
  | RelayError.UnknownError => "UnknownError"

/-- The message emitted for each variant by the
`PrintProgramError::print` implementation in `errors.rs`, arm for arm. -/
def relayErrorPrintMsg : RelayError → String
  | RelayError.AlreadyInit => "RelayError: AlreadyInit"
  | RelayError.InsufficientStateSpace => "RelayError: InsufficientStateSpace"
  | RelayError.ReadOverrun => "RelayError: ReadOverrun"
  | RelayError.BadCompactInt => "RelayError: BadCompactInt"
  | RelayError.MalformattedOpReturnOutput => "RelayError: MalformattedOpReturnOutput"
  | RelayError.MalformattedP2SHOutput => "RelayError: MalformattedP2SHOutput"
  | RelayError.MalformattedP2PKHOutput => "RelayError: MalformattedP2PKHOutput"
  | RelayError.MalformattedWitnessOutput => "RelayError: MalformattedWitnessOutput"
  | RelayError.MalformattedOutput => "RelayError: MalformattedOutput"
  | RelayError.WrongLengthHeader => "RelayError: WrongLengthHeader"
  | RelayError.UnexpectedDifficultyChange => "RelayError: UnexpectedDifficultyChange"
  | RelayError.InsufficientWork => "RelayError: InsufficientWork"
  | RelayError.InvalidChain => "RelayError: InvalidChain"
  | RelayError.WrongDigest => "RelayError: WrongDigest"
  | RelayError.WrongMerkleRoot => "RelayError: WrongMerkleRoot"
  | RelayError.WrongPrevHash => "RelayError: WrongPrevHash"
  | RelayError.InvalidVin => "RelayError: InvalidVin"
  | RelayError.InvalidVout => "RelayError: InvalidVout"
  | RelayError.WrongTxID => "RelayError: WrongTxID"
  | RelayError.BadMerkleProof => "RelayError: BadMerkleProof"
  | RelayError.OutputLengthMismatch => "RelayError: OutputLengthMismatch"
  | RelayError.UnknownError => "RelayError: UnknownError"

/-- The identifier of each `SPVError` variant as it appears in the
conversion's match arms. -/
def spvErrorName : SPVError → String
  | SPVError.ReadOverrun => "ReadOverrun"
  | SPVError.BadCompactInt => "BadCompactInt"
  | SPVError.MalformattedOpReturnOutput => "MalformattedOpReturnOutput"
  | SPVError.MalformattedP2SHOutput => "MalformattedP2SHOutput"
  | SPVError.MalformattedP2PKHOutput => "MalformattedP2PKHOutput"
  | SPVError.MalformattedWitnessOutput => "MalformattedWitnessOutput"
  | SPVError.MalformattedOutput => "MalformattedOutput"
  | SPVError.WrongLengthHeader => "WrongLengthHeader"
  | SPVError.UnexpectedDifficultyChange => "UnexpectedDifficultyChange"
  | SPVError.InsufficientWork => "InsufficientWork"
  | SPVError.InvalidChain => "InvalidChain"
  | SPVError.WrongDigest => "WrongDigest"
  | SPVError.WrongMerkleRoot => "WrongMerkleRoot"
  | SPVError.WrongPrevHash => "WrongPrevHash"
  | SPVError.InvalidVin => "InvalidVin"
  | SPVError.InvalidVout => "InvalidVout"
  | SPVError.WrongTxID => "WrongTxID"
  | SPVError.BadMerkleProof => "BadMerkleProof"
  | SPVError.OutputLengthMismatch => "OutputLengthMismatch"
  | SPVError.UnknownError => "UnknownError"

/-- Modelled from the spec: `ByteCursor.readBytes` (section 4.1). The
engine's checked byte reader is not under `src/`; the spec defines it as
returning the requested sub-slice when `offset + len` fits inside the
slice, and failing with `ReadOverrun` otherwise. Bytes are Nat values
below 256. -/
def readBytes (s : List Nat) (offset len : Nat) : Except RelayError (List Nat) :=
  if offset + len ≤ s.length then
    Except.ok ((s.drop offset).take len)
  else
    Except.error RelayError.ReadOverrun

/-- Little-endian byte decomposition: the `k` low-order base-256 digits of
`n`, least significant first. -/
def toLE : Nat → Nat → List Nat
  | 0, _ => []
  | k + 1, n => n % 256 :: toLE k (n / 256)

/-- Little-endian recomposition of a byte list into a Nat. -/
def fromLE : List Nat → Nat
  | [] => 0
  | b :: bs => b + 256 * fromLE bs

/-- Modelled from the spec: `CompactIntCodec.encode` (section 4.2). The
codec is not under `src/`; the spec requires the minimal-length form:
one bare byte below 0xfd, or a tag byte 0xfd/0xfe/0xff followed by the
value in 2, 4, or 8 little-endian bytes. -/
def compactIntEncode (n : Nat) : List Nat :=
  if n < 0xfd then [n]
  else if n < 0x10000 then 0xfd :: toLE 2 n
  else if n < 0x100000000 then 0xfe :: toLE 4 n
  else 0xff :: toLE 8 n

/-- Modelled from the spec: `encodedLen` (section 8), the length of the
minimal CompactInt encoding of `n`: 1, 3, 5, or 9 bytes by magnitude. -/
def encodedLen (n : Nat) : Nat :=
  if n < 0xfd then 1
  else if n < 0x10000 then 3
  else if n < 0x100000000 then 5
  else 9

/-- Modelled from the spec: `CompactIntCodec.decode` (section 4.2). The
codec is not under `src/`; the spec reads the first byte through the
checked reader, dispatches on the 0xfd/0xfe/0xff tags, reads the required
following bytes little-endian, and turns any failed follow-up read into
`BadCompactInt`. -/
def compactIntDecode (bytes : List Nat) (offset : Nat) : Except RelayError (Nat × Nat) :=
  match readBytes bytes offset 1 with
  | Except.error _ => Except.error RelayError.BadCompactInt
  | Except.ok tagBytes =>
    let tag := tagBytes.headD 0
    if tag < 0xfd then
      Except.ok (tag, 1)
    else
      let k : Nat := if tag = 0xfd then 2 else if tag = 0xfe then 4 else 8
      match readBytes bytes (offset + 1) k with
      | Except.error _ => Except.error RelayError.BadCompactInt
      | Except.ok payload => Except.ok (fromLE payload, k + 1)

theorem toLE_length (k n : Nat) : (toLE k n).length = k := by
  induction k generalizing n with
  | zero => rfl
  | succ k ih => simp [toLE, ih]

theorem fromLE_toLE (k n : Nat) : fromLE (toLE k n) = n % 256 ^ k := by
  induction k generalizing n with
  | zero => simp [toLE, fromLE, Nat.mod_one]
  | succ k ih =>
    rw [toLE, fromLE, ih, pow_succ, mul_comm (256 ^ k) 256, Nat.mod_mul]

theorem compactIntDecode_small (t : Nat) (rest : List Nat) (h : t < 0xfd) :
    compactIntDecode (t :: rest) 0 = Except.ok (t, 1) := by
  simp [compactIntDecode, readBytes, h]

theorem compactIntDecode_tagged (t : Nat) (rest : List Nat) (ht : 0xfd ≤ t)
    (k : Nat) (hk : k = if t = 0xfd then 2 else if t = 0xfe then 4 else 8)
    (h : k ≤ rest.length) :
    compactIntDecode (t :: rest) 0 = Except.ok (fromLE (rest.take k), k + 1) := by
  have h1 : readBytes (t :: rest) 0 1 = Except.ok [t] := by
    simp [readBytes]
  have h2 : readBytes (t :: rest) (0 + 1) k = Except.ok (rest.take k) := by
    rw [readBytes, if_pos (by simp; omega)]
    simp
  rw [compactIntDecode, h1]
  simp only [List.headD_cons]
  rw [if_neg (by omega), hk.symm, h2]

/-- C1: the claim asserts an exhaustive one-to-one correspondence between
`SPVError` and `RelayError` in both directions. It is false: the two
enumerations do not even have the same number of variants (20 against 22),
and the concrete variant `RelayError.AlreadyInit` is hit by no `SPVError`
under the conversion (`relayErrorOfSPVError` maps the full `SPVError`
enumeration, listed exhaustively by `spvErrorAll`, and `AlreadyInit` is not
among the images). -/
theorem claim_C1_counterexample :
    spvErrorAll.length = 20 ∧ relayErrorAll.length = 22 ∧
    (spvErrorAll.map relayErrorOfSPVError).contains RelayError.AlreadyInit = false := by
  decide

/-- C1 (amended): the conversion from `SPVError` to `RelayError` is total
and injective (no two `SPVError` variants share an image: the image list of
the full enumeration has no duplicate), and its image is exactly the twenty
spv-derived `RelayError` variants; the two relay-specific variants
`AlreadyInit` and `InsufficientStateSpace` are outside the image, and no
reverse conversion exists. -/
theorem claim_C1_amended :
    (∀ e : SPVError, e ∈ spvErrorAll) ∧
    (spvErrorAll.map relayErrorOfSPVError).Nodup ∧
    (∀ r : RelayError, r ∈ spvErrorAll.map relayErrorOfSPVError ↔ r ∈ specTaxonomyKinds) := by
  decide

/-- C2: the claim asserts that the error result type `RelayError` has
exactly the twenty variants of the spec's taxonomy and no others. It is
false: `RelayError.AlreadyInit` is a variant of `RelayError` that is not
among those twenty kinds. -/
theorem claim_C2_counterexample :
    specTaxonomyKinds.contains RelayError.AlreadyInit = false ∧
    specTaxonomyKinds.length = 20 := by
  decide

/-- C2 (amended): `RelayError` consists of the twenty kinds of the spec's
taxonomy plus exactly two relay-specific variants, `AlreadyInit` and
`InsufficientStateSpace`: every variant is one of those twenty-two, and the
twenty taxonomy kinds are pairwise distinct. -/
theorem claim_C2_amended :
    (∀ e : RelayError,
      e = RelayError.AlreadyInit ∨ e = RelayError.InsufficientStateSpace ∨
        e ∈ specTaxonomyKinds) ∧
    specTaxonomyKinds.Nodup ∧ specTaxonomyKinds.length = 20 := by
  decide

/-- C3: the conversion of a `RelayError` into a `ProgramError` is total —
every variant is mapped, to `Custom` of its numeric code — and injective:
over the complete enumeration of the variants the assigned numeric codes
are pairwise distinct. -/
theorem claim_C3 :
    (∀ e : RelayError, programErrorOfRelayError e = ProgramError.Custom (relayErrorCode e)) ∧
    (∀ e : RelayError, e ∈ relayErrorAll) ∧
    (relayErrorAll.map relayErrorCode).Nodup := by
  decide

/-- C4: the mapping from error variants to display strings is exhaustive:
for every `RelayError` variant the `Display` string equals the variant's
name, the `print` implementation emits "RelayError: " followed by that
name, and the names over the complete enumeration are pairwise distinct, so
each variant is named by its own string. -/
theorem claim_C4 :
    (∀ e : RelayError, relayErrorDisplay e = relayErrorName e) ∧
    (∀ e : RelayError, relayErrorPrintMsg e = "RelayError: " ++ relayErrorName e) ∧
    (relayErrorAll.map relayErrorName).Nodup := by
  decide

/-- C5: the conversion from `SPVError` yields `RelayError.UnknownError`
exactly on the input `SPVError.UnknownError`: for every other `SPVError`
variant the converted value is not `UnknownError`. -/
theorem claim_C5 :
    ∀ e : SPVError,
      relayErrorOfSPVError e = RelayError.UnknownError ↔ e = SPVError.UnknownError := by
  decide

/-- C6: for every byte slice `s` and every `offset` and `len`,
`readBytes s offset len` succeeds with the requested sub-slice exactly when
`offset + len ≤ s.length`, and fails with `ReadOverrun` otherwise. -/
theorem claim_C6 (s : List Nat) (offset len : Nat) :
    (offset + len ≤ s.length →
      readBytes s offset len = Except.ok ((s.drop offset).take len)) ∧
    (s.length < offset + len →
      readBytes s offset len = Except.error RelayError.ReadOverrun) := by
  constructor
  · intro h
    rw [readBytes, if_pos h]
  · intro h
    rw [readBytes, if_neg (by omega)]

/-- C6 witness: on the concrete slice `[10, 20, 30]`, the in-bounds read at
offset 1 of length 2 returns `[20, 30]`, and the out-of-bounds read at
offset 2 of length 2 fails with `ReadOverrun`. -/
theorem claim_C6_witness :
    (1 + 2 ≤ ([10, 20, 30] : List Nat).length ∧
      readBytes [10, 20, 30] 1 2 = Except.ok [20, 30]) ∧
    (([10, 20, 30] : List Nat).length < 2 + 2 ∧
      readBytes [10, 20, 30] 2 2 = Except.error RelayError.ReadOverrun) :=
  ⟨⟨by decide, (claim_C6 [10, 20, 30] 1 2).1 (by decide)⟩,
   ⟨by decide, (claim_C6 [10, 20, 30] 2 2).2 (by decide)⟩⟩

/-- C7: for every u64 value `n`, decoding the encoding of `n` succeeds and
returns the pair of `n` and the encoded length, and the encoding has the
minimal length determined by the magnitude of `n` (1, 3, 5, or 9 bytes). -/
theorem claim_C7 (n : Nat) (h : n < 2 ^ 64) :
    compactIntDecode (compactIntEncode n) 0 = Except.ok (n, encodedLen n) ∧
    (compactIntEncode n).length = encodedLen n := by
  by_cases h1 : n < 0xfd
  · rw [compactIntEncode, if_pos h1, encodedLen, if_pos h1]
    exact ⟨compactIntDecode_small n [] h1, rfl⟩
  · by_cases h2 : n < 0x10000
    · rw [compactIntEncode, if_neg h1, if_pos h2, encodedLen, if_neg h1, if_pos h2]
      have htake : (toLE 2 n).take 2 = toLE 2 n := by
        conv_lhs => rw [show (2 : Nat) = (toLE 2 n).length from (toLE_length 2 n).symm]
        exact List.take_length _
      constructor
      · rw [compactIntDecode_tagged 0xfd (toLE 2 n) (by omega) 2 (by norm_num)
          (by rw [toLE_length]), htake, fromLE_toLE]
        rw [Nat.mod_eq_of_lt (lt_of_lt_of_le h2 (by norm_num))]
      · simp [toLE_length]
    · by_cases h3 : n < 0x100000000
      · rw [compactIntEncode, if_neg h1, if_neg h2, if_pos h3,
          encodedLen, if_neg h1, if_neg h2, if_pos h3]
        have htake : (toLE 4 n).take 4 = toLE 4 n := by
          conv_lhs => rw [show (4 : Nat) = (toLE 4 n).length from (toLE_length 4 n).symm]
          exact List.take_length _
        constructor
        · rw [compactIntDecode_tagged 0xfe (toLE 4 n) (by omega) 4 (by norm_num)
            (by rw [toLE_length]), htake, fromLE_toLE]
          rw [Nat.mod_eq_of_lt (lt_of_lt_of_le h3 (by norm_num))]
        · simp [toLE_length]
      · rw [compactIntEncode, if_neg h1, if_neg h2, if_neg h3,
          encodedLen, if_neg h1, if_neg h2, if_neg h3]
        have htake : (toLE 8 n).take 8 = toLE 8 n := by
          conv_lhs => rw [show (8 : Nat) = (toLE 8 n).length from (toLE_length 8 n).symm]
          exact List.take_length _
        constructor
        · rw [compactIntDecode_tagged 0xff (toLE 8 n) (by omega) 8 (by norm_num)
            (by rw [toLE_length]), htake, fromLE_toLE]
          rw [Nat.mod_eq_of_lt (lt_of_lt_of_le h (by norm_num))]
        · simp [toLE_length]

/-- C7 witness: at the concrete value 65536, decoding the encoding returns
`(65536, 5)` and the encoding is the 5-byte minimal form. -/
theorem claim_C7_witness :
    65536 < 2 ^ 64 ∧
      (compactIntDecode (compactIntEncode 65536) 0 = Except.ok (65536, encodedLen 65536) ∧
        (compactIntEncode 65536).length = encodedLen 65536) :=
  ⟨by norm_num, claim_C7 65536 (by norm_num)⟩

/-- C8: the numeric code of each `RelayError` variant is its declaration
index: mapping the declaration-order enumeration of all twenty-two
variants through the code function gives exactly 0, 1, ..., 21, with
`AlreadyInit` at 0, `InsufficientStateSpace` at 1, `ReadOverrun` at 2 and
`UnknownError` at 21, and every spv-derived variant (an image of the
conversion from `SPVError`) has code at least 2. -/
theorem claim_C8 :
    relayErrorCode RelayError.AlreadyInit = 0 ∧
    relayErrorCode RelayError.InsufficientStateSpace = 1 ∧
    relayErrorCode RelayError.ReadOverrun = 2 ∧
    relayErrorCode RelayError.UnknownError = 21 ∧
    (∀ e : RelayError, e ∈ relayErrorAll) ∧
    relayErrorAll.map relayErrorCode = List.range 22 ∧
    (∀ e : SPVError, 2 ≤ relayErrorCode (relayErrorOfSPVError e)) := by
  decide

/-- C9: numeric codes round-trip: `from_u32` of a variant's code returns
that variant, and `from_u32` of any value greater than 21, the largest
assigned code, returns none. -/
theorem claim_C9 :
    (∀ e : RelayError, relayErrorFromU32 (relayErrorCode e) = some e) ∧
    (∀ n : Nat, 21 < n → relayErrorFromU32 n = none) := by
  constructor
  · decide
  · intro n hn
    obtain ⟨m, rfl⟩ : ∃ m, n = m + 22 := ⟨n - 22, by omega⟩
    rfl

/-- C9 witness: the code of `UnknownError` round-trips back to
`UnknownError`, and `from_u32` at the concrete out-of-range value 100
returns none. -/
theorem claim_C9_witness :
    relayErrorFromU32 (relayErrorCode RelayError.UnknownError) = some RelayError.UnknownError ∧
    (21 < 100 ∧ relayErrorFromU32 100 = none) :=
  ⟨claim_C9.1 RelayError.UnknownError, by norm_num, claim_C9.2 100 (by norm_num)⟩

/-- C10: the `SPVError` to `RelayError` conversion is injective — over the
complete enumeration of `SPVError` the images are pairwise distinct — and
name-preserving: each variant maps to the `RelayError` variant of the same
name. -/
theorem claim_C10 :
    (∀ e : SPVError, e ∈ spvErrorAll) ∧
    (spvErrorAll.map relayErrorOfSPVError).Nodup ∧
    (∀ e : SPVError, relayErrorName (relayErrorOfSPVError e) = spvErrorName e) := by
  decide
